import Mathlib

/-!
Verification of the lido-satellite swap adapter of skip-api-contracts.

The repository ships the adapter test suite
(contracts/adapters/swap/lido-satellite/tests/test_execute_swap.rs); the
handler body itself is absent, so the handler is modelled from the spec
(sections 3, 4.1, 6, 7 and 8), with the concrete message shapes taken from
the expectations recorded in the test file. Serialization of message
payloads (to_binary) is elided: a structural payload stands for its binary
encoding, so structural equality of messages stands for byte equality.
-/

/-- A native token amount attached to a call: a denom string and an amount. -/
structure Coin where
  denom : String
  amount : Nat
deriving DecidableEq

/-- Swap operation descriptor from the generic skip swap interface. The
adapter accepts a list of these but never inspects it: direction is inferred
from the attached denom alone. -/
structure SwapOperation where
  pool : String
  denom_in : String
  denom_out : String
deriving DecidableEq

/-- Modelled from the spec: the external liquid-staking (Lido Satellite)
contract exposes two conversion operations, Mint (bridged to canonical) and
Burn (canonical to bridged), each with an optional receiver. -/
inductive LidoSatelliteExecuteMsg where
  | mint (receiver : Option String)
  | burn (receiver : Option String)
deriving DecidableEq

/-- Modelled from the spec: the adapter self-callback instruction
TransferFundsBack \x7b swapper, return_denom \x7d. -/
inductive SkipSwapExecuteMsg where
  | transferFundsBack (swapper : String) (return_denom : String)
deriving DecidableEq

/-- Payload of an outbound wasm execute message. Binary serialization is
elided; the structural payload stands for its encoding. -/
inductive Payload where
  | lido (m : LidoSatelliteExecuteMsg)
  | skipSwap (m : SkipSwapExecuteMsg)
deriving DecidableEq

/-- An outbound wasm execute call: target contract address, payload, and
attached funds. -/
structure WasmExecute where
  contract_addr : String
  msg : Payload
  funds : List Coin
deriving DecidableEq

/-- Reply policy of a sub-message. -/
inductive ReplyOn where
  | never
  | always
  | success
  | error
deriving DecidableEq

/-- A sub-message as dispatched by the host: an id, the wrapped message, an
optional gas limit and a reply policy. -/
structure SubMsg where
  id : Nat
  msg : WasmExecute
  gas_limit : Option Nat
  reply_on : ReplyOn
deriving DecidableEq

/-- Payment-shape errors of the cw-utils payment helper. -/
inductive PaymentError where
  | noFunds
  | multipleDenoms
deriving DecidableEq

/-- Modelled from the spec: the adapter error taxonomy. The std variant
covers storage-read failure of a missing configuration item. -/
inductive ContractError where
  | std
  | unauthorized
  | payment (e : PaymentError)
  | unsupportedDenom
deriving DecidableEq

/-- Modelled from the spec: the four persisted configuration items, written
once at instantiation and read on every call: the authorized caller
(entry point) address, the external Lido Satellite contract address, and the
bridged and canonical denoms. -/
structure Config where
  entry_point_contract_address : String
  lido_satellite_contract_address : String
  bridged_denom : String
  canonical_denom : String
deriving DecidableEq

/-- Modelled from the spec: the payment-shape check (cw-utils one_coin).
Exactly one coin must be attached: zero coins is a NoFunds payment error,
more than one attached coin is a MultipleDenoms payment error. -/
def one_coin (funds : List Coin) : Except PaymentError Coin :=
  match funds with
  | [] => .error .noFunds
  | [c] => .ok c
  | _ => .error .multipleDenoms

/-- A fire-and-forget sub-message: id 0, no gas limit, no reply requested,
as recorded in the test expectations of test_execute_swap.rs. -/
def subMsgNever (m : WasmExecute) : SubMsg :=
  { id := 0, msg := m, gas_limit := none, reply_on := .never }

/-- Modelled from the spec: the handler execute_swap. Validation in order:
the caller must equal the configured entry point address (otherwise
Unauthorized), exactly one coin must be attached (otherwise a payment
error), and its denom must be the bridged or the canonical denom (otherwise
UnsupportedDenom). On the mint path (attached denom equals the bridged
denom) it emits a Mint call to the Lido Satellite contract forwarding the
whole coin, then a self-addressed TransferFundsBack with return denom the
canonical denom and no funds; the burn path is symmetric. -/
def execute_swap (cfg : Config) (env_contract_address : String)
    (caller : String) (funds : List Coin) (operations : List SwapOperation) :
    Except ContractError (List SubMsg) :=
  if caller ≠ cfg.entry_point_contract_address then
    .error .unauthorized
  else
    match one_coin funds with
    | .error e => .error (.payment e)
    | .ok coin =>
      if coin.denom = cfg.bridged_denom then
        .ok [subMsgNever ⟨cfg.lido_satellite_contract_address,
               .lido (.mint none), [coin]⟩,
             subMsgNever ⟨env_contract_address,
               .skipSwap (.transferFundsBack caller cfg.canonical_denom), []⟩]
      else if coin.denom = cfg.canonical_denom then
        .ok [subMsgNever ⟨cfg.lido_satellite_contract_address,
               .lido (.burn none), [coin]⟩,
             subMsgNever ⟨env_contract_address,
               .skipSwap (.transferFundsBack caller cfg.bridged_denom), []⟩]
      else
        .error .unsupportedDenom

/-- The persistent key-value store abstraction underlying the Item storage. -/
abbrev Store := List (String × String)

/-- Read one stored item by key. -/
def loadItem (s : Store) (k : String) : Option String :=
  (s.find? (fun p => p.1 == k)).map (fun p => p.2)

/-- Modelled from the spec: the stateful entry of the handler. It loads the
four configuration items from storage (a missing item is a std error) and
runs execute_swap; the handler contains no storage write, so the store is
returned unchanged next to the outcome. -/
def execute_swap_store (s : Store) (env_contract_address : String)
    (caller : String) (funds : List Coin) (operations : List SwapOperation) :
    Store × Except ContractError (List SubMsg) :=
  (s,
    match loadItem s "entry_point_contract_address",
          loadItem s "lido_satellite_contract_address",
          loadItem s "bridged_denom",
          loadItem s "canonical_denom" with
    | some a, some l, some b, some c =>
        execute_swap ⟨a, l, b, c⟩ env_contract_address caller funds operations
    | _, _, _, _ => .error .std)

/-- The configuration used by the repository test suite. -/
def testConfig : Config :=
  ⟨"entry_point", "lido_satellite_contract", "ibc/wstETH", "factory/wstETH"⟩

/-- Success results consist of exactly two fire-and-forget sub-messages. -/
theorem execute_swap_ok_shape (cfg : Config) (env_addr caller : String)
    (funds : List Coin) (ops : List SwapOperation) (msgs : List SubMsg)
    (h : execute_swap cfg env_addr caller funds ops = .ok msgs) :
    ∃ w1 w2, msgs = [subMsgNever w1, subMsgNever w2] := by
  by_cases hc : caller = cfg.entry_point_contract_address
  · rcases funds with _ | ⟨coin, _ | ⟨c2, rest⟩⟩
    · simp [execute_swap, one_coin, hc] at h
    · by_cases hb : coin.denom = cfg.bridged_denom
      · simp [execute_swap, one_coin, hc, hb] at h
        exact ⟨_, _, h.symm⟩
      · by_cases hcan : coin.denom = cfg.canonical_denom
        · simp [execute_swap, one_coin, hc, hb, hcan] at h
          split at h <;> injection h with hmsgs <;> exact ⟨_, _, hmsgs.symm⟩
        · simp [execute_swap, one_coin, hc, hb, hcan] at h
    · simp [execute_swap, one_coin, hc] at h
  · simp [execute_swap, hc] at h

/-- C1: for the authorized caller attaching exactly one coin of the bridged
denom, execute_swap succeeds with exactly two messages: first a Mint call to
the external contract forwarding the whole coin, second a self-addressed
TransferFundsBack naming the caller and the canonical denom with no funds. -/
theorem execute_swap_mint_path (cfg : Config) (env_addr caller : String)
    (coin : Coin) (ops : List SwapOperation)
    (hauth : caller = cfg.entry_point_contract_address)
    (hdenom : coin.denom = cfg.bridged_denom) :
    execute_swap cfg env_addr caller [coin] ops =
      .ok [subMsgNever ⟨cfg.lido_satellite_contract_address,
             .lido (.mint none), [coin]⟩,
           subMsgNever ⟨env_addr,
             .skipSwap (.transferFundsBack caller cfg.canonical_denom), []⟩] := by
  simp [execute_swap, one_coin, hauth, hdenom]

/-- Witness for C1 at the concrete scenario of the test suite. -/
theorem execute_swap_mint_path_witness :
    execute_swap testConfig "swap_contract_address" "entry_point"
        [⟨"ibc/wstETH", 100⟩] [] =
      .ok [subMsgNever ⟨"lido_satellite_contract",
             .lido (.mint none), [⟨"ibc/wstETH", 100⟩]⟩,
           subMsgNever ⟨"swap_contract_address",
             .skipSwap (.transferFundsBack "entry_point" "factory/wstETH"), []⟩] :=
  execute_swap_mint_path testConfig "swap_contract_address" "entry_point"
    ⟨"ibc/wstETH", 100⟩ [] rfl rfl

/-- C2: for the authorized caller attaching exactly one coin of the canonical
denom (the configured denoms being distinct), execute_swap succeeds with a
Burn call to the external contract forwarding the whole coin, then a
self-addressed TransferFundsBack naming the caller and the bridged denom. -/
theorem execute_swap_burn_path (cfg : Config) (env_addr caller : String)
    (coin : Coin) (ops : List SwapOperation)
    (hauth : caller = cfg.entry_point_contract_address)
    (hdenom : coin.denom = cfg.canonical_denom)
    (hne : cfg.bridged_denom ≠ cfg.canonical_denom) :
    execute_swap cfg env_addr caller [coin] ops =
      .ok [subMsgNever ⟨cfg.lido_satellite_contract_address,
             .lido (.burn none), [coin]⟩,
           subMsgNever ⟨env_addr,
             .skipSwap (.transferFundsBack caller cfg.bridged_denom), []⟩] := by
  simp [execute_swap, one_coin, hauth, hdenom, Ne.symm hne]

/-- Witness for C2 at the concrete scenario of the test suite. -/
theorem execute_swap_burn_path_witness :
    execute_swap testConfig "swap_contract_address" "entry_point"
        [⟨"factory/wstETH", 100⟩] [] =
      .ok [subMsgNever ⟨"lido_satellite_contract",
             .lido (.burn none), [⟨"factory/wstETH", 100⟩]⟩,
           subMsgNever ⟨"swap_contract_address",
             .skipSwap (.transferFundsBack "entry_point" "ibc/wstETH"), []⟩] :=
  execute_swap_burn_path testConfig "swap_contract_address" "entry_point"
    ⟨"factory/wstETH", 100⟩ [] rfl rfl (by decide)

/-- C3: any caller other than the stored entry point address gets the
Unauthorized error, whatever the attached funds and operations list; no
messages are produced. -/
theorem execute_swap_unauthorized (cfg : Config) (env_addr caller : String)
    (funds : List Coin) (ops : List SwapOperation)
    (h : caller ≠ cfg.entry_point_contract_address) :
    execute_swap cfg env_addr caller funds ops = .error .unauthorized := by
  simp [execute_swap, h]

/-- Witness for C3 at the unauthorized-caller test case. -/
theorem execute_swap_unauthorized_witness :
    execute_swap testConfig "swap_contract_address" "random"
        [⟨"untrn", 100⟩, ⟨"uosmo", 100⟩] [] = .error .unauthorized :=
  execute_swap_unauthorized testConfig "swap_contract_address" "random"
    [⟨"untrn", 100⟩, ⟨"uosmo", 100⟩] [] (by decide)

/-- C4: validation is ordered and short-circuiting. An unauthorized caller
gets Unauthorized whatever the funds (in particular for a two-coin malformed
payment); an authorized caller with zero coins gets the NoFunds payment
error and with two or more coins the MultipleDenoms payment error, whatever
the denoms, so malformed payments never reach the denom-membership check. -/
theorem execute_swap_validation_order (cfg : Config) (env_addr caller : String)
    (funds : List Coin) (ops : List SwapOperation) :
    (caller ≠ cfg.entry_point_contract_address →
      execute_swap cfg env_addr caller funds ops = .error .unauthorized)
    ∧ (caller = cfg.entry_point_contract_address → funds = [] →
      execute_swap cfg env_addr caller funds ops = .error (.payment .noFunds))
    ∧ (caller = cfg.entry_point_contract_address →
      ∀ c1 c2 rest, funds = c1 :: c2 :: rest →
      execute_swap cfg env_addr caller funds ops =
        .error (.payment .multipleDenoms)) := by
  refine ⟨fun h => by simp [execute_swap, h], fun h hf => ?_, fun h c1 c2 rest hf => ?_⟩
  · subst hf
    simp [execute_swap, one_coin, h]
  · subst hf
    simp [execute_swap, one_coin, h]

/-- Witness for C4: an unauthorized caller with a malformed two-coin payment
is answered with Unauthorized, not a payment error. -/
theorem execute_swap_validation_order_witness :
    execute_swap testConfig "swap_contract_address" "random"
        [⟨"untrn", 100⟩, ⟨"uosmo", 100⟩] [] = .error .unauthorized :=
  (execute_swap_validation_order testConfig "swap_contract_address" "random"
    [⟨"untrn", 100⟩, ⟨"uosmo", 100⟩] []).1 (by decide)

/-- C5: for the authorized caller, zero attached coins fail with the NoFunds
payment error, and two or more attached coins of distinct denoms fail with
the MultipleDenoms payment error; no messages are produced. -/
theorem execute_swap_payment_shape (cfg : Config) (env_addr caller : String)
    (ops : List SwapOperation)
    (hauth : caller = cfg.entry_point_contract_address) :
    execute_swap cfg env_addr caller [] ops = .error (.payment .noFunds)
    ∧ ∀ (c1 c2 : Coin) (rest : List Coin), c1.denom ≠ c2.denom →
      execute_swap cfg env_addr caller (c1 :: c2 :: rest) ops =
        .error (.payment .multipleDenoms) := by
  refine ⟨by simp [execute_swap, one_coin, hauth], fun c1 c2 rest _ => ?_⟩
  simp [execute_swap, one_coin, hauth]

/-- Witness for C5 at the no-coin and two-coin test cases. -/
theorem execute_swap_payment_shape_witness :
    execute_swap testConfig "swap_contract_address" "entry_point" [] [] =
      .error (.payment .noFunds)
    ∧ execute_swap testConfig "swap_contract_address" "entry_point"
        [⟨"untrn", 100⟩, ⟨"uosmo", 100⟩] [] =
      .error (.payment .multipleDenoms) :=
  ⟨(execute_swap_payment_shape testConfig "swap_contract_address"
      "entry_point" [] rfl).1,
   (execute_swap_payment_shape testConfig "swap_contract_address"
      "entry_point" [] rfl).2 ⟨"untrn", 100⟩ ⟨"uosmo", 100⟩ [] (by decide)⟩

/-- C6: for the authorized caller attaching exactly one coin whose denom is
neither the bridged nor the canonical denom, execute_swap fails with
UnsupportedDenom and produces no messages. -/
theorem execute_swap_unsupported (cfg : Config) (env_addr caller : String)
    (coin : Coin) (ops : List SwapOperation)
    (hauth : caller = cfg.entry_point_contract_address)
    (hb : coin.denom ≠ cfg.bridged_denom)
    (hc : coin.denom ≠ cfg.canonical_denom) :
    execute_swap cfg env_addr caller [coin] ops = .error .unsupportedDenom := by
  simp [execute_swap, one_coin, hauth, hb, hc]

/-- Witness for C6 at the incorrect-denom test case (100 uosmo). -/
theorem execute_swap_unsupported_witness :
    execute_swap testConfig "swap_contract_address" "entry_point"
        [⟨"uosmo", 100⟩] [] = .error .unsupportedDenom :=
  execute_swap_unsupported testConfig "swap_contract_address" "entry_point"
    ⟨"uosmo", 100⟩ [] rfl (by decide) (by decide)

/-- C7: the result of execute_swap does not depend on the swap-operations
list: any two lists (including the empty one) give the same result. -/
theorem execute_swap_ignores_operations (cfg : Config) (env_addr caller : String)
    (funds : List Coin) (ops1 ops2 : List SwapOperation) :
    execute_swap cfg env_addr caller funds ops1 =
      execute_swap cfg env_addr caller funds ops2 := rfl

/-- C8: no call to execute_swap mutates persistent state: the store after
the call equals the store before, for every input, whether the call
succeeds or fails, so every stored configuration item is unchanged. -/
theorem execute_swap_preserves_store (s : Store) (env_addr caller : String)
    (funds : List Coin) (ops : List SwapOperation) :
    (execute_swap_store s env_addr caller funds ops).1 = s := rfl

/-- C9: execute_swap is deterministic: two independent calls with equal
configuration, equal environment address and equal inputs produce identical
results, in particular identical outbound message lists on success. -/
theorem execute_swap_deterministic (cfg1 cfg2 : Config)
    (env1 env2 caller1 caller2 : String) (funds1 funds2 : List Coin)
    (ops1 ops2 : List SwapOperation)
    (hcfg : cfg1 = cfg2) (henv : env1 = env2) (hcaller : caller1 = caller2)
    (hfunds : funds1 = funds2) (hops : ops1 = ops2) :
    execute_swap cfg1 env1 caller1 funds1 ops1 =
      execute_swap cfg2 env2 caller2 funds2 ops2 := by
  subst hcfg henv hcaller hfunds hops
  rfl

/-- Witness for C9: two identically configured concrete calls agree. -/
theorem execute_swap_deterministic_witness :
    execute_swap testConfig "swap_contract_address" "entry_point"
        [⟨"ibc/wstETH", 100⟩] [] =
      execute_swap testConfig "swap_contract_address" "entry_point"
        [⟨"ibc/wstETH", 100⟩] [] :=
  execute_swap_deterministic testConfig testConfig "swap_contract_address"
    "swap_contract_address" "entry_point" "entry_point"
    [⟨"ibc/wstETH", 100⟩] [⟨"ibc/wstETH", 100⟩] [] [] rfl rfl rfl rfl rfl

/-- C10: every sub-message of a successful execute_swap call is
fire-and-forget with identical dispatch metadata: id 0, no gas limit and
reply policy never. -/
theorem execute_swap_submsg_metadata (cfg : Config) (env_addr caller : String)
    (funds : List Coin) (ops : List SwapOperation) (msgs : List SubMsg)
    (h : execute_swap cfg env_addr caller funds ops = .ok msgs) :
    ∀ m ∈ msgs, m.id = 0 ∧ m.gas_limit = none ∧ m.reply_on = .never := by
  intro m hm
  obtain ⟨w1, w2, rfl⟩ :=
    execute_swap_ok_shape cfg env_addr caller funds ops msgs h
  simp only [List.mem_cons, List.not_mem_nil, or_false] at hm
  rcases hm with hm | hm <;> subst hm <;> exact ⟨rfl, rfl, rfl⟩

/-- Witness for C10 at the concrete mint scenario. -/
theorem execute_swap_submsg_metadata_witness :
    (subMsgNever ⟨"lido_satellite_contract",
        .lido (.mint none), [⟨"ibc/wstETH", 100⟩]⟩).id = 0
    ∧ (subMsgNever ⟨"lido_satellite_contract",
        .lido (.mint none), [⟨"ibc/wstETH", 100⟩]⟩).gas_limit = none
    ∧ (subMsgNever ⟨"lido_satellite_contract",
        .lido (.mint none), [⟨"ibc/wstETH", 100⟩]⟩).reply_on = .never :=
  execute_swap_submsg_metadata testConfig "swap_contract_address"
    "entry_point" [⟨"ibc/wstETH", 100⟩] []
    [subMsgNever ⟨"lido_satellite_contract",
       .lido (.mint none), [⟨"ibc/wstETH", 100⟩]⟩,
     subMsgNever ⟨"swap_contract_address",
       .skipSwap (.transferFundsBack "entry_point" "factory/wstETH"), []⟩]
    rfl
    (subMsgNever ⟨"lido_satellite_contract",
       .lido (.mint none), [⟨"ibc/wstETH", 100⟩]⟩)
    (by simp)
